import Mathlib

/-!
Shallow embedding of the GPTX token-ledger backend
(src/gptx/routers/tokens.py, carbon.py, exchange.py and the ORM models in
src/gptx/core/database.py).

Monetary amounts (Python floats) are modelled as exact rationals.  Database
tables become Lean lists held in a `DB` record; each HTTP handler becomes a
function `DB → request → ... → Except ApiError (DB × response)`, where an
`Except.error` result models an HTTPException raised before `db.commit()`
(so the store is unchanged), and an `Except.ok (db', resp)` result models a
committed transaction producing the new store `db'`.  External collaborators
(the mock blockchain transaction issuer, the credit verifier and restorer,
the wall-clock certificate id) are passed in as parameters, as the spec
treats them as black boxes.  The `created_at` timestamp columns are not
modelled; row order in the lists stands for the default query order.
-/

namespace GPTX

/-- Row of the `token_wrappers` table (class `TokenWrapper` in database.py). -/
structure TokenWrapper where
  id : Nat
  user_address : String
  provider : String
  original_credits : ℚ
  wrapped_tokens : ℚ
  transaction_hash : String
  is_active : Bool
deriving Repr, DecidableEq

/-- Row of the `exchanges` table (class `Exchange` in database.py). -/
structure Exchange where
  id : Nat
  seller_address : String
  buyer_address : String
  token_amount : ℚ
  price_per_token : ℚ
  total_price : ℚ
  transaction_hash : String
  status : String
deriving Repr, DecidableEq

/-- Row of the `carbon_offsets` table (class `CarbonOffset` in database.py). -/
structure CarbonOffset where
  id : Nat
  user_address : String
  tokens_retired : ℚ
  carbon_credits_purchased : ℚ
  offset_provider : String
  offset_certificate_id : String
  transaction_hash : String
deriving Repr, DecidableEq

/-- Row of the `ai_providers` table (class `AIProvider` in database.py). -/
structure AIProvider where
  name : String
  display_name : String
  is_active : Bool
  conversion_rate : ℚ
deriving Repr, DecidableEq

/-- The relational store: the four tables of the data model.  `next_id`
models the autoincrementing primary key shared out to new rows. -/
structure DB where
  wrappers : List TokenWrapper
  exchanges : List Exchange
  offsets : List CarbonOffset
  providers : List AIProvider
  next_id : Nat
deriving Repr, DecidableEq

/-- The error taxonomy of the handlers.  `providerNotSupported`,
`validation` and `insufficientBalance` are raised as HTTP 400,
`internalError` as HTTP 500 (the catch-all `except Exception` branch). -/
inductive ApiError where
  | providerNotSupported : String → ApiError
  | validation : String → ApiError
  | insufficientBalance : (available : ℚ) → (requested : ℚ) → ApiError
  | internalError : ApiError
deriving Repr, DecidableEq

/-- HTTP status code each error is mapped to by the handlers. -/
def ApiError.statusCode : ApiError → Nat
  | .providerNotSupported _ => 400
  | .validation _ => 400
  | .insufficientBalance _ _ => 400
  | .internalError => 500

/-- Filter of the unscoped active-wrapper queries
(`TokenWrapper.user_address == user_address, TokenWrapper.is_active == True`
in get_token_balance and retire_tokens_for_offset). -/
def userActiveFilter (user_address : String) (w : TokenWrapper) : Bool :=
  w.user_address == user_address && w.is_active

/-- Filter of the provider-scoped active-wrapper query in unwrap_credits. -/
def userProviderActiveFilter (user_address provider : String)
    (w : TokenWrapper) : Bool :=
  w.user_address == user_address && w.provider == provider && w.is_active

/-- `sum(w.wrapped_tokens for w in rows)`. -/
def sumWrapped (rows : List TokenWrapper) : ℚ :=
  (rows.map (fun w => w.wrapped_tokens)).sum

/-- Total active balance of a user, as read by get_token_balance and by the
retire precondition check. -/
def userBalance (db : DB) (user_address : String) : ℚ :=
  sumWrapped (db.wrappers.filter (userActiveFilter user_address))

/-- Provider-scoped active balance of a user, as read by the unwrap
precondition check. -/
def userProviderBalance (db : DB) (user_address provider : String) : ℚ :=
  sumWrapped (db.wrappers.filter (userProviderActiveFilter user_address provider))

/-- The allocation loop shared verbatim by unwrap_credits (tokens.py, the
`for wrapper in user_wrappers` loop) and retire_tokens_for_offset
(carbon.py).  The Python loop walks the rows returned by the scoped query in
order; here the walk is over the whole table, with `pred` the query filter,
so rows failing `pred` are passed through untouched exactly as rows outside
the query result are never visited by the Python loop.  Per visited row:
break when `remaining <= 0`; full consumption (`is_active = False`,
`wrapped_tokens` left as is) when `wrapped_tokens <= remaining`; otherwise
partial consumption (`wrapped_tokens -= remaining; remaining = 0`).
Returns the updated table and the final value of `remaining`. -/
def allocate (pred : TokenWrapper → Bool) :
    List TokenWrapper → ℚ → List TokenWrapper × ℚ
  | [], remaining => ([], remaining)
  | w :: ws, remaining =>
    if pred w then
      if remaining ≤ 0 then (w :: ws, remaining)
      else if w.wrapped_tokens ≤ remaining then
        let rest := allocate pred ws (remaining - w.wrapped_tokens)
        ({ w with is_active := false } :: rest.1, rest.2)
      else
        let rest := allocate pred ws 0
        ({ w with wrapped_tokens := w.wrapped_tokens - remaining } :: rest.1,
          rest.2)
    else
      let rest := allocate pred ws remaining
      (w :: rest.1, rest.2)

/-- Amount the allocation took out of one row: the old balance minus what is
still attributed to the row afterwards (a deactivated row contributes
nothing further). -/
def rowConsumed (o n : TokenWrapper) : ℚ :=
  if n.is_active then o.wrapped_tokens - n.wrapped_tokens else o.wrapped_tokens

/-- Sum of the amounts consumed from the individual rows matched by the
query filter, comparing the table before and after an allocation. -/
def consumedTotal (pred : TokenWrapper → Bool) :
    List TokenWrapper → List TokenWrapper → ℚ
  | o :: os, n :: ns =>
    (if pred o then rowConsumed o n else 0) + consumedTotal pred os ns
  | _, _ => 0

/-- `db.query(AIProvider).filter(name == ..., is_active == True).first()`. -/
def findProvider (db : DB) (name : String) : Option AIProvider :=
  db.providers.find? (fun p => p.name == name && p.is_active)

/-- Request body of POST /api/tokens/wrap. -/
structure WrapCreditsRequest where
  provider : String
  credit_amount : ℚ
  proof : String
deriving Repr, DecidableEq

/-- Response body of POST /api/tokens/wrap (message string omitted). -/
structure WrapCreditsResponse where
  transaction_hash : String
  tokens_issued : ℚ
deriving Repr, DecidableEq

/-- Handler wrap_credits in tokens.py.  `verification_valid` stands for the
result of the mocked `ai_service.verify_credit_ownership` call and
`tx_hash` for the hash returned by the mocked blockchain service. -/
def wrap_credits (db : DB) (request : WrapCreditsRequest)
    (user_address : String) (verification_valid : Bool) (tx_hash : String) :
    Except ApiError (DB × WrapCreditsResponse) :=
  match findProvider db request.provider with
  | none => .error (.providerNotSupported request.provider)
  | some provider =>
    if request.credit_amount ≤ 0 then
      .error (.validation "Credit amount must be greater than 0")
    else if request.proof.length < 10 then
      .error (.validation "Valid proof of credit ownership required")
    else if !verification_valid then
      .error (.validation "Credit verification failed")
    else
      let tokens_to_mint := request.credit_amount * provider.conversion_rate
      let wrapper : TokenWrapper :=
        { id := db.next_id
          user_address := user_address
          provider := request.provider
          original_credits := request.credit_amount
          wrapped_tokens := tokens_to_mint
          transaction_hash := tx_hash
          is_active := true }
      .ok ({ db with wrappers := db.wrappers ++ [wrapper],
                     next_id := db.next_id + 1 },
           { transaction_hash := tx_hash, tokens_issued := tokens_to_mint })

/-- Response body of GET /api/tokens/balance (per-row breakdown omitted:
the claims concern only the total). -/
structure TokenBalance where
  user_address : String
  total_balance : ℚ
deriving Repr, DecidableEq

/-- Handler get_token_balance in tokens.py: a pure read. -/
def get_token_balance (db : DB) (user_address : String) : TokenBalance :=
  let wrapped_credits := db.wrappers.filter
    (fun w => w.user_address == user_address && w.is_active)
  { user_address := user_address
    total_balance := sumWrapped wrapped_credits }

/-- Request body of POST /api/tokens/unwrap. -/
structure UnwrapCreditsRequest where
  provider : String
  token_amount : ℚ
deriving Repr, DecidableEq

/-- Response body of POST /api/tokens/unwrap (message string omitted). -/
structure UnwrapCreditsResponse where
  credits_restored : ℚ
  provider : String
  transaction_hash : String
deriving Repr, DecidableEq

/-- Handler unwrap_credits in tokens.py.  Note there is no check that
`token_amount` is positive.  The division by `conversion_rate` is unguarded
in the source; a zero rate raises ZeroDivisionError, caught by the
catch-all branch as HTTP 500, modelled by the explicit `internalError`
case. -/
def unwrap_credits (db : DB) (request : UnwrapCreditsRequest)
    (user_address : String) (tx_hash : String) :
    Except ApiError (DB × UnwrapCreditsResponse) :=
  match findProvider db request.provider with
  | none => .error (.providerNotSupported request.provider)
  | some provider_obj =>
    let user_wrappers := db.wrappers.filter
      (userProviderActiveFilter user_address request.provider)
    let total_wrapped := sumWrapped user_wrappers
    if total_wrapped < request.token_amount then
      .error (.insufficientBalance total_wrapped request.token_amount)
    else if provider_obj.conversion_rate == 0 then
      .error .internalError
    else
      let credits_to_restore := request.token_amount / provider_obj.conversion_rate
      let alloc := allocate
        (userProviderActiveFilter user_address request.provider)
        db.wrappers request.token_amount
      .ok ({ db with wrappers := alloc.1 },
           { credits_restored := credits_to_restore
             provider := request.provider
             transaction_hash := tx_hash })

/-- Request body of POST /api/carbon/retire. -/
structure RetireTokensRequest where
  token_amount : ℚ
  reason : String
deriving Repr, DecidableEq

/-- Response body of POST /api/carbon/retire (message string omitted). -/
structure CarbonOffsetResponse where
  transaction_hash : String
  tokens_retired : ℚ
  carbon_credits_purchased : ℚ
  offset_provider : String
  certificate_id : String
deriving Repr, DecidableEq

/-- Handler retire_tokens_for_offset in carbon.py.  `certificate_id` stands
for the wall-clock and hash derived certificate string and `tx_hash` for
the mocked blockchain transaction hash.  The offset row insert and the
wrapper debits commit together, modelled as the single returned store. -/
def retire_tokens_for_offset (db : DB) (request : RetireTokensRequest)
    (user_address : String) (certificate_id tx_hash : String) :
    Except ApiError (DB × CarbonOffsetResponse) :=
  if request.token_amount ≤ 0 then
    .error (.validation "Token amount must be greater than 0")
  else
    let user_wrappers := db.wrappers.filter (userActiveFilter user_address)
    let total_balance := sumWrapped user_wrappers
    if total_balance < request.token_amount then
      .error (.insufficientBalance total_balance request.token_amount)
    else
      let carbon_credits_purchased := request.token_amount * (1 / 1000 : ℚ)
      let offset_provider := "GreenCarbon Solutions"
      let offset_record : CarbonOffset :=
        { id := db.next_id
          user_address := user_address
          tokens_retired := request.token_amount
          carbon_credits_purchased := carbon_credits_purchased
          offset_provider := offset_provider
          offset_certificate_id := certificate_id
          transaction_hash := tx_hash }
      let alloc := allocate (userActiveFilter user_address)
        db.wrappers request.token_amount
      .ok ({ db with wrappers := alloc.1
                     offsets := db.offsets ++ [offset_record]
                     next_id := db.next_id + 1 },
           { transaction_hash := tx_hash
             tokens_retired := request.token_amount
             carbon_credits_purchased := carbon_credits_purchased
             offset_provider := offset_provider
             certificate_id := certificate_id })

/-- Request body of POST /api/exchange/trade. -/
structure ExecuteTradeRequest where
  order_id : Nat
  token_amount : ℚ
deriving Repr, DecidableEq

/-- Response body of POST /api/exchange/trade (message string omitted). -/
structure TradeResponse where
  transaction_hash : String
  buyer : String
  seller : String
  token_amount : ℚ
  price_per_token : ℚ
  total_price : ℚ
deriving Repr, DecidableEq

/-- Handler execute_trade in exchange.py: fixed mock seller and price
(0.95 = 19/20), one Exchange row inserted with status completed, no
Wrapper row touched. -/
def execute_trade (db : DB) (request : ExecuteTradeRequest)
    (buyer_address : String) (tx_hash : String) :
    Except ApiError (DB × TradeResponse) :=
  if request.token_amount ≤ 0 then
    .error (.validation "Token amount must be greater than 0")
  else
    let seller_address := "0x1234567890123456789012345678901234567890"
    let price_per_token : ℚ := 19 / 20
    let total_price := request.token_amount * price_per_token
    let trade : Exchange :=
      { id := db.next_id
        seller_address := seller_address
        buyer_address := buyer_address
        token_amount := request.token_amount
        price_per_token := price_per_token
        total_price := total_price
        transaction_hash := tx_hash
        status := "completed" }
    .ok ({ db with exchanges := db.exchanges ++ [trade]
                   next_id := db.next_id + 1 },
         { transaction_hash := tx_hash
           buyer := buyer_address
           seller := seller_address
           token_amount := request.token_amount
           price_per_token := price_per_token
           total_price := total_price })

/-! ### Concrete store used to exercise the handlers -/

/-- The "openai" provider row seeded with conversion rate 1.0. -/
def openaiProvider : AIProvider :=
  { name := "openai"
    display_name := "OpenAI"
    is_active := true
    conversion_rate := 1 }

/-- A provider row with conversion rate 0, exercising the unguarded
division in unwrap_credits. -/
def zeroRateProvider : AIProvider :=
  { name := "zerorate"
    display_name := "ZeroRate"
    is_active := true
    conversion_rate := 0 }

/-- First wrapper row of the running example: 50 active tokens. -/
def wrapperA : TokenWrapper :=
  { id := 1
    user_address := "0xabc"
    provider := "openai"
    original_credits := 50
    wrapped_tokens := 50
    transaction_hash := "0xhash1"
    is_active := true }

/-- Second wrapper row of the running example: 50 active tokens. -/
def wrapperB : TokenWrapper :=
  { id := 2
    user_address := "0xabc"
    provider := "openai"
    original_credits := 50
    wrapped_tokens := 50
    transaction_hash := "0xhash2"
    is_active := true }

/-- Concrete store: one user holding two 50-token wrappers (the scenario
of spec section 8: wrap 50 + wrap 50, then unwrap 70). -/
def exampleDb : DB :=
  { wrappers := [wrapperA, wrapperB]
    exchanges := []
    offsets := []
    providers := [openaiProvider, zeroRateProvider]
    next_id := 3 }

/-! ### Properties of the query filters -/

theorem userActiveFilter_deactivate (u : String) (w : TokenWrapper) :
    userActiveFilter u { w with is_active := false } = false := by
  simp [userActiveFilter]

theorem userActiveFilter_set_tokens (u : String) (w : TokenWrapper) (q : ℚ) :
    userActiveFilter u { w with wrapped_tokens := q } = userActiveFilter u w :=
  rfl

theorem userActiveFilter_active (u : String) (w : TokenWrapper)
    (h : userActiveFilter u w = true) : w.is_active = true := by
  simp [userActiveFilter] at h
  exact h.2

theorem userProviderActiveFilter_deactivate (u p : String) (w : TokenWrapper) :
    userProviderActiveFilter u p { w with is_active := false } = false := by
  simp [userProviderActiveFilter]

theorem userProviderActiveFilter_set_tokens (u p : String) (w : TokenWrapper)
    (q : ℚ) :
    userProviderActiveFilter u p { w with wrapped_tokens := q }
      = userProviderActiveFilter u p w :=
  rfl

theorem userProviderActiveFilter_active (u p : String) (w : TokenWrapper)
    (h : userProviderActiveFilter u p w = true) : w.is_active = true := by
  simp [userProviderActiveFilter] at h
  exact h.2

/-! ### Properties of the allocation loop -/

theorem sumWrapped_nil : sumWrapped [] = 0 := rfl

theorem sumWrapped_cons (w : TokenWrapper) (ws : List TokenWrapper) :
    sumWrapped (w :: ws) = w.wrapped_tokens + sumWrapped ws := by
  simp [sumWrapped]

/-- With a non-positive request the loop breaks before touching any row. -/
theorem allocate_nonpos (pred : TokenWrapper → Bool) (rows : List TokenWrapper)
    (r : ℚ) (hr : r ≤ 0) : allocate pred rows r = (rows, r) := by
  induction rows with
  | nil => simp [allocate]
  | cons w ws ih =>
    by_cases hp : pred w
    · simp [allocate, hp, hr]
    · simp [allocate, hp, ih]

/-- The loop only updates rows in place: the table keeps its length. -/
theorem allocate_length (pred : TokenWrapper → Bool) (rows : List TokenWrapper)
    (r : ℚ) : (allocate pred rows r).1.length = rows.length := by
  induction rows generalizing r with
  | nil => simp [allocate]
  | cons w ws ih =>
    by_cases hp : pred w
    · by_cases hr : r ≤ 0
      · simp [allocate, hp, hr]
      · by_cases hwt : w.wrapped_tokens ≤ r
        · simp [allocate, hp, hr, hwt, ih]
        · simp [allocate, hp, hr, hwt, ih]
    · simp [allocate, hp, ih]

/-- Rows the query filter rejects are passed through unchanged, position by
position. -/
theorem allocate_frame (pred : TokenWrapper → Bool) (rows : List TokenWrapper)
    (r : ℚ) :
    List.Forall₂ (fun o n => pred o = false → n = o) rows
      (allocate pred rows r).1 := by
  induction rows generalizing r with
  | nil => simp [allocate]
  | cons w ws ih =>
    by_cases hp : pred w
    · by_cases hr : r ≤ 0
      · simp only [allocate, hp, if_pos hr, if_true]
        exact List.Forall₂.cons (fun h => rfl)
          (List.forall₂_same.2 (fun x _ h => rfl))
      · by_cases hwt : w.wrapped_tokens ≤ r
        · simp only [allocate, hp, if_neg hr, if_pos hwt, if_true]
          exact List.Forall₂.cons (fun h => by simp [hp] at h) (ih _)
        · simp only [allocate, hp, if_neg hr, if_neg hwt, if_true]
          exact List.Forall₂.cons (fun h => by simp [hp] at h) (ih _)
    · simp only [allocate, hp, if_false, Bool.false_eq_true]
      exact List.Forall₂.cons (fun _ => rfl) (ih _)

/-- The loop never drives a balance negative: nonnegative rows stay
nonnegative (a partially consumed row keeps `wrapped_tokens - remaining > 0`
because the partial branch requires `remaining < wrapped_tokens`). -/
theorem allocate_nonneg (pred : TokenWrapper → Bool) (rows : List TokenWrapper)
    (r : ℚ) (h : ∀ w ∈ rows, 0 ≤ w.wrapped_tokens) :
    ∀ w ∈ (allocate pred rows r).1, 0 ≤ w.wrapped_tokens := by
  induction rows generalizing r with
  | nil => simp [allocate]
  | cons w ws ih =>
    have hw := h w (List.mem_cons_self w ws)
    have hws : ∀ v ∈ ws, 0 ≤ v.wrapped_tokens :=
      fun v hv => h v (List.mem_cons_of_mem w hv)
    by_cases hp : pred w
    · by_cases hr : r ≤ 0
      · simpa [allocate, hp, hr] using h
      · by_cases hwt : w.wrapped_tokens ≤ r
        · intro v hv
          simp only [allocate, hp, if_neg hr, if_pos hwt, if_true,
            List.mem_cons] at hv
          rcases hv with hv | hv
          · subst hv; exact hw
          · exact ih _ hws v hv
        · intro v hv
          simp only [allocate, hp, if_neg hr, if_neg hwt, if_true,
            List.mem_cons] at hv
          rcases hv with hv | hv
          · subst hv
            have : r < w.wrapped_tokens := lt_of_not_le hwt
            exact le_of_lt (sub_pos.2 this)
          · exact ih _ hws v hv
    · intro v hv
      simp only [allocate, hp, if_false, Bool.false_eq_true, List.mem_cons] at hv
      rcases hv with hv | hv
      · subst hv; exact hw
      · exact ih _ hws v hv

/-- Exactness of the greedy walk.  `pred` must reject deactivated rows and
ignore the `wrapped_tokens` field, as both query filters do.  When the
requested amount is between 0 and the scoped active balance, the loop ends
with `remaining = 0` and the scoped active balance drops by exactly the
requested amount. -/
theorem allocate_exact (pred : TokenWrapper → Bool)
    (hdeact : ∀ w : TokenWrapper, pred { w with is_active := false } = false)
    (hdecr : ∀ (w : TokenWrapper) (q : ℚ),
      pred { w with wrapped_tokens := q } = pred w)
    (rows : List TokenWrapper) (r : ℚ) (h0 : 0 ≤ r)
    (hle : r ≤ sumWrapped (rows.filter pred)) :
    (allocate pred rows r).2 = 0 ∧
    sumWrapped ((allocate pred rows r).1.filter pred)
      = sumWrapped (rows.filter pred) - r := by
  induction rows generalizing r with
  | nil =>
    have hr : r = 0 := le_antisymm (by simpa [sumWrapped] using hle) h0
    simp [allocate, hr, sumWrapped]
  | cons w ws ih =>
    by_cases hp : pred w
    · by_cases hr0 : r ≤ 0
      · have hr : r = 0 := le_antisymm hr0 h0
        simp [allocate, hp, hr0, hr]
      · have hsum : sumWrapped ((w :: ws).filter pred)
            = w.wrapped_tokens + sumWrapped (ws.filter pred) := by
          simp [List.filter_cons, hp, sumWrapped_cons]
        by_cases hwt : w.wrapped_tokens ≤ r
        · have h0' : 0 ≤ r - w.wrapped_tokens := by linarith
          have hle' : r - w.wrapped_tokens ≤ sumWrapped (ws.filter pred) := by
            rw [hsum] at hle; linarith
          obtain ⟨h1, h2⟩ := ih (r - w.wrapped_tokens) h0' hle'
          refine ⟨?_, ?_⟩
          · simp only [allocate, hp, if_neg hr0, if_pos hwt, if_true]
            exact h1
          · simp only [allocate, hp, if_neg hr0, if_pos hwt, if_true]
            simp only [List.filter_cons, hdeact w, Bool.false_eq_true,
              if_false, hsum] at h2 ⊢
            rw [h2, if_pos hp, sumWrapped_cons]
            ring
        · refine ⟨?_, ?_⟩
          · simp only [allocate, hp, if_neg hr0, if_neg hwt, if_true]
            rw [allocate_nonpos pred ws 0 le_rfl]
          · simp only [allocate, hp, if_neg hr0, if_neg hwt, if_true]
            rw [allocate_nonpos pred ws 0 le_rfl]
            have hp' : pred { w with wrapped_tokens := w.wrapped_tokens - r }
                = true := by rw [hdecr]; exact hp
            rw [hsum]
            simp only [List.filter_cons, hp', if_true, sumWrapped_cons]
            ring
    · have hsum : sumWrapped ((w :: ws).filter pred)
          = sumWrapped (ws.filter pred) := by
        simp [List.filter_cons, hp]
      rw [hsum] at hle
      obtain ⟨h1, h2⟩ := ih r h0 hle
      refine ⟨?_, ?_⟩
      · simp only [allocate, hp, if_false, Bool.false_eq_true]
        exact h1
      · rw [hsum]
        simp only [allocate, hp, if_false, Bool.false_eq_true,
          List.filter_cons]
        rw [h2]

/-- An allocation that touches nothing consumes nothing from any matched
row (matched rows are active, so each contributes `old - new = 0`). -/
theorem consumedTotal_self (pred : TokenWrapper → Bool)
    (hact : ∀ w, pred w = true → w.is_active = true)
    (rows : List TokenWrapper) : consumedTotal pred rows rows = 0 := by
  induction rows with
  | nil => simp [consumedTotal]
  | cons w ws ih =>
    by_cases hp : pred w
    · simp [consumedTotal, hp, rowConsumed, hact w hp, ih]
    · simp [consumedTotal, hp, ih]

/-- The amounts consumed from the individual matched rows sum to exactly
the requested amount. -/
theorem allocate_consumed (pred : TokenWrapper → Bool)
    (hact : ∀ w, pred w = true → w.is_active = true)
    (rows : List TokenWrapper) (r : ℚ) (h0 : 0 ≤ r)
    (hle : r ≤ sumWrapped (rows.filter pred)) :
    consumedTotal pred rows (allocate pred rows r).1 = r := by
  induction rows generalizing r with
  | nil =>
    have hr : r = 0 := le_antisymm (by simpa [sumWrapped] using hle) h0
    simp [allocate, consumedTotal, hr]
  | cons w ws ih =>
    by_cases hp : pred w
    · by_cases hr0 : r ≤ 0
      · have hr : r = 0 := le_antisymm hr0 h0
        rw [allocate_nonpos pred (w :: ws) r hr0, hr]
        exact consumedTotal_self pred hact (w :: ws)
      · have hsum : sumWrapped ((w :: ws).filter pred)
            = w.wrapped_tokens + sumWrapped (ws.filter pred) := by
          simp [List.filter_cons, hp, sumWrapped_cons]
        by_cases hwt : w.wrapped_tokens ≤ r
        · have h0' : 0 ≤ r - w.wrapped_tokens := by linarith
          have hle' : r - w.wrapped_tokens ≤ sumWrapped (ws.filter pred) := by
            rw [hsum] at hle; linarith
          have h2 := ih (r - w.wrapped_tokens) h0' hle'
          simp only [allocate, hp, if_neg hr0, if_pos hwt, if_true,
            consumedTotal, rowConsumed]
          rw [h2]
          simp [hp]
        · simp only [allocate, hp, if_neg hr0, if_neg hwt, if_true]
          rw [allocate_nonpos pred ws 0 le_rfl]
          simp only [consumedTotal, hp, if_pos, rowConsumed]
          have ha : w.is_active = true := hact w hp
          rw [consumedTotal_self pred hact ws]
          simp [ha]
    · simp only [allocate, hp, if_false, Bool.false_eq_true, consumedTotal]
      have hsum : sumWrapped ((w :: ws).filter pred)
          = sumWrapped (ws.filter pred) := by
        simp [List.filter_cons, hp]
      rw [hsum] at hle
      simp [ih r h0 hle]

/-! ### Shape of each handler on the paths the claims quantify over -/

theorem sumWrapped_append (xs ys : List TokenWrapper) :
    sumWrapped (xs ++ ys) = sumWrapped xs + sumWrapped ys := by
  simp [sumWrapped]

theorem sumWrapped_filter_append (p : TokenWrapper → Bool)
    (xs : List TokenWrapper) (w : TokenWrapper) :
    sumWrapped ((xs ++ [w]).filter p)
      = sumWrapped (xs.filter p)
        + (if p w then w.wrapped_tokens else 0) := by
  rw [List.filter_append, sumWrapped_append]
  by_cases hp : p w <;> simp [List.filter_cons, hp, sumWrapped]

/-- On the success path, wrap_credits appends exactly one new active row
carrying `credit_amount * conversion_rate` tokens and reports the same
amount as issued. -/
theorem wrap_credits_ok (db : DB) (request : WrapCreditsRequest)
    (user_address tx_hash : String) (p : AIProvider)
    (hp : findProvider db request.provider = some p)
    (hpos : 0 < request.credit_amount)
    (hproof : 10 ≤ request.proof.length) :
    wrap_credits db request user_address true tx_hash =
      .ok ({ db with
              wrappers := db.wrappers ++
                [{ id := db.next_id
                   user_address := user_address
                   provider := request.provider
                   original_credits := request.credit_amount
                   wrapped_tokens := request.credit_amount * p.conversion_rate
                   transaction_hash := tx_hash
                   is_active := true }]
              next_id := db.next_id + 1 },
           { transaction_hash := tx_hash
             tokens_issued := request.credit_amount * p.conversion_rate }) := by
  simp only [wrap_credits, hp]
  rw [if_neg (not_le.2 hpos), if_neg (not_lt.2 hproof)]
  simp

/-- On the success path, unwrap_credits commits exactly the allocation
result and reports `token_amount / conversion_rate` credits restored. -/
theorem unwrap_credits_ok (db : DB) (request : UnwrapCreditsRequest)
    (user_address tx_hash : String) (p : AIProvider)
    (hp : findProvider db request.provider = some p)
    (hrate : p.conversion_rate ≠ 0)
    (hbal : request.token_amount
      ≤ userProviderBalance db user_address request.provider) :
    unwrap_credits db request user_address tx_hash =
      .ok ({ db with
              wrappers := (allocate
                (userProviderActiveFilter user_address request.provider)
                db.wrappers request.token_amount).1 },
           { credits_restored := request.token_amount / p.conversion_rate
             provider := request.provider
             transaction_hash := tx_hash }) := by
  have h1 : ¬ (sumWrapped (db.wrappers.filter
      (userProviderActiveFilter user_address request.provider))
      < request.token_amount) := not_lt.2 hbal
  have h2 : ¬ ((p.conversion_rate == 0) = true) := by
    rw [beq_iff_eq]
    exact hrate
  simp only [unwrap_credits, hp]
  rw [if_neg h1, if_neg h2]

/-- When the requested amount strictly exceeds the scoped active balance,
unwrap_credits raises InsufficientBalance carrying both figures, before
running the allocation loop, so the store is unchanged. -/
theorem unwrap_credits_insufficient (db : DB) (request : UnwrapCreditsRequest)
    (user_address tx_hash : String) (p : AIProvider)
    (hp : findProvider db request.provider = some p)
    (hbal : userProviderBalance db user_address request.provider
      < request.token_amount) :
    unwrap_credits db request user_address tx_hash =
      .error (.insufficientBalance
        (userProviderBalance db user_address request.provider)
        request.token_amount) := by
  have hbal2 : sumWrapped (List.filter
      (userProviderActiveFilter user_address request.provider) db.wrappers)
      < request.token_amount := hbal
  simp only [unwrap_credits, hp]
  rw [if_pos hbal2]
  rfl

/-- With a zero conversion rate the unguarded division raises
ZeroDivisionError, caught by the catch-all branch as HTTP 500. -/
theorem unwrap_credits_zero_rate (db : DB) (request : UnwrapCreditsRequest)
    (user_address tx_hash : String) (p : AIProvider)
    (hp : findProvider db request.provider = some p)
    (hrate : p.conversion_rate = 0)
    (hbal : request.token_amount
      ≤ userProviderBalance db user_address request.provider) :
    unwrap_credits db request user_address tx_hash =
      .error .internalError := by
  have h1 : ¬ (sumWrapped (db.wrappers.filter
      (userProviderActiveFilter user_address request.provider))
      < request.token_amount) := not_lt.2 hbal
  have h2 : (p.conversion_rate == 0) = true := by
    rw [beq_iff_eq]
    exact hrate
  simp only [unwrap_credits, hp]
  rw [if_neg h1, if_pos h2]

/-- On the success path, retire_tokens_for_offset commits the allocation
result together with exactly one new CarbonOffset row in one transaction. -/
theorem retire_tokens_ok (db : DB) (request : RetireTokensRequest)
    (user_address certificate_id tx_hash : String)
    (hpos : 0 < request.token_amount)
    (hbal : request.token_amount ≤ userBalance db user_address) :
    retire_tokens_for_offset db request user_address certificate_id tx_hash =
      .ok ({ db with
              wrappers := (allocate (userActiveFilter user_address)
                db.wrappers request.token_amount).1
              offsets := db.offsets ++
                [{ id := db.next_id
                   user_address := user_address
                   tokens_retired := request.token_amount
                   carbon_credits_purchased :=
                     request.token_amount * (1 / 1000 : ℚ)
                   offset_provider := "GreenCarbon Solutions"
                   offset_certificate_id := certificate_id
                   transaction_hash := tx_hash }]
              next_id := db.next_id + 1 },
           { transaction_hash := tx_hash
             tokens_retired := request.token_amount
             carbon_credits_purchased := request.token_amount * (1 / 1000 : ℚ)
             offset_provider := "GreenCarbon Solutions"
             certificate_id := certificate_id }) := by
  have h1 : ¬ (sumWrapped (db.wrappers.filter (userActiveFilter user_address))
      < request.token_amount) := not_lt.2 hbal
  simp only [retire_tokens_for_offset]
  rw [if_neg (not_le.2 hpos), if_neg h1]

/-- When the requested amount strictly exceeds the unscoped active balance,
retire_tokens_for_offset raises InsufficientBalance carrying both figures,
before running the allocation loop, so the store is unchanged. -/
theorem retire_tokens_insufficient (db : DB) (request : RetireTokensRequest)
    (user_address certificate_id tx_hash : String)
    (hpos : 0 < request.token_amount)
    (hbal : userBalance db user_address < request.token_amount) :
    retire_tokens_for_offset db request user_address certificate_id tx_hash =
      .error (.insufficientBalance (userBalance db user_address)
        request.token_amount) := by
  have hbal2 : sumWrapped (List.filter (userActiveFilter user_address)
      db.wrappers) < request.token_amount := hbal
  simp only [retire_tokens_for_offset]
  rw [if_neg (not_le.2 hpos), if_pos hbal2]
  rfl

/-- On the success path, execute_trade appends exactly one completed
Exchange row at the fixed mock price and touches nothing else. -/
theorem execute_trade_ok (db : DB) (request : ExecuteTradeRequest)
    (buyer_address tx_hash : String) (hpos : 0 < request.token_amount) :
    execute_trade db request buyer_address tx_hash =
      .ok ({ db with
              exchanges := db.exchanges ++
                [{ id := db.next_id
                   seller_address :=
                     "0x1234567890123456789012345678901234567890"
                   buyer_address := buyer_address
                   token_amount := request.token_amount
                   price_per_token := (19 : ℚ) / 20
                   total_price := request.token_amount * ((19 : ℚ) / 20)
                   transaction_hash := tx_hash
                   status := "completed" }]
              next_id := db.next_id + 1 },
           { transaction_hash := tx_hash
             buyer := buyer_address
             seller := "0x1234567890123456789012345678901234567890"
             token_amount := request.token_amount
             price_per_token := (19 : ℚ) / 20
             total_price := request.token_amount * ((19 : ℚ) / 20) }) := by
  simp only [execute_trade]
  rw [if_neg (not_le.2 hpos)]

/-! ### Claim theorems -/

/-- C1: for every unwrap or retire request with requested amount A where
the scoped active balance B satisfies 0 < A <= B, after the operation the
scoped active balance equals B - A exactly, the sum of amounts consumed
from individual wrapper rows equals A, and the allocation loop ends with
remaining = 0. -/
theorem claim_C1_alloc_exact :
    (∀ (db : DB) (request : UnwrapCreditsRequest)
      (user_address tx_hash : String) (p : AIProvider),
      findProvider db request.provider = some p →
      p.conversion_rate ≠ 0 →
      0 < request.token_amount →
      request.token_amount
        ≤ userProviderBalance db user_address request.provider →
      ∃ db' resp,
        unwrap_credits db request user_address tx_hash = .ok (db', resp) ∧
        userProviderBalance db' user_address request.provider
          = userProviderBalance db user_address request.provider
            - request.token_amount ∧
        consumedTotal (userProviderActiveFilter user_address request.provider)
          db.wrappers db'.wrappers = request.token_amount ∧
        (allocate (userProviderActiveFilter user_address request.provider)
          db.wrappers request.token_amount).2 = 0) ∧
    (∀ (db : DB) (request : RetireTokensRequest)
      (user_address certificate_id tx_hash : String),
      0 < request.token_amount →
      request.token_amount ≤ userBalance db user_address →
      ∃ db' resp,
        retire_tokens_for_offset db request user_address certificate_id
          tx_hash = .ok (db', resp) ∧
        userBalance db' user_address
          = userBalance db user_address - request.token_amount ∧
        consumedTotal (userActiveFilter user_address)
          db.wrappers db'.wrappers = request.token_amount ∧
        (allocate (userActiveFilter user_address)
          db.wrappers request.token_amount).2 = 0) := by
  constructor
  · intro db request user_address tx_hash p hp hrate hpos hbal
    have hex := allocate_exact
      (userProviderActiveFilter user_address request.provider)
      (fun w => userProviderActiveFilter_deactivate user_address
        request.provider w)
      (fun w q => userProviderActiveFilter_set_tokens user_address
        request.provider w q)
      db.wrappers request.token_amount (le_of_lt hpos) hbal
    have hcons := allocate_consumed
      (userProviderActiveFilter user_address request.provider)
      (fun w h => userProviderActiveFilter_active user_address
        request.provider w h)
      db.wrappers request.token_amount (le_of_lt hpos) hbal
    exact ⟨_, _, unwrap_credits_ok db request user_address tx_hash p hp
      hrate hbal, hex.2, hcons, hex.1⟩
  · intro db request user_address certificate_id tx_hash hpos hbal
    have hex := allocate_exact (userActiveFilter user_address)
      (fun w => userActiveFilter_deactivate user_address w)
      (fun w q => userActiveFilter_set_tokens user_address w q)
      db.wrappers request.token_amount (le_of_lt hpos) hbal
    have hcons := allocate_consumed (userActiveFilter user_address)
      (fun w h => userActiveFilter_active user_address w h)
      db.wrappers request.token_amount (le_of_lt hpos) hbal
    exact ⟨_, _, retire_tokens_ok db request user_address certificate_id
      tx_hash hpos hbal, hex.2, hcons, hex.1⟩

/-- C1 witness: unwrap 70 of 100 and retire 25 of 100 on the concrete
store succeed with the stated postconditions. -/
theorem claim_C1_witness :
    (∃ db' resp,
      unwrap_credits exampleDb { provider := "openai", token_amount := 70 }
        "0xabc" "0xtx1" = .ok (db', resp) ∧
      userProviderBalance db' "0xabc" "openai"
        = userProviderBalance exampleDb "0xabc" "openai" - 70 ∧
      consumedTotal (userProviderActiveFilter "0xabc" "openai")
        exampleDb.wrappers db'.wrappers = 70 ∧
      (allocate (userProviderActiveFilter "0xabc" "openai")
        exampleDb.wrappers 70).2 = 0) ∧
    (∃ db' resp,
      retire_tokens_for_offset exampleDb
        { token_amount := 25, reason := "Carbon offset retirement" }
        "0xabc" "GCS-20240101-0001" "0xtx2" = .ok (db', resp) ∧
      userBalance db' "0xabc" = userBalance exampleDb "0xabc" - 25 ∧
      consumedTotal (userActiveFilter "0xabc")
        exampleDb.wrappers db'.wrappers = 25 ∧
      (allocate (userActiveFilter "0xabc") exampleDb.wrappers 25).2 = 0) := by
  constructor
  · exact claim_C1_alloc_exact.1 exampleDb
      { provider := "openai", token_amount := 70 } "0xabc" "0xtx1"
      openaiProvider rfl (by norm_num [openaiProvider]) (by norm_num)
      (by norm_num [userProviderBalance, exampleDb, sumWrapped,
        userProviderActiveFilter, wrapperA, wrapperB, List.filter])
  · exact claim_C1_alloc_exact.2 exampleDb
      { token_amount := 25, reason := "Carbon offset retirement" }
      "0xabc" "GCS-20240101-0001" "0xtx2" (by norm_num)
      (by norm_num [userBalance, exampleDb, sumWrapped,
        userActiveFilter, wrapperA, wrapperB, List.filter])

/-- C2: requesting more than the scoped active balance fails with an
InsufficientBalance error carrying the available and requested amounts
(mapped to HTTP 400); the handler raises before the allocation loop runs
and before `db.commit()`, so every Wrapper row is left unchanged — in this
model an `Except.error` result carries no new store. -/
theorem claim_C2_insufficient :
    (∀ (db : DB) (request : UnwrapCreditsRequest)
      (user_address tx_hash : String) (p : AIProvider),
      findProvider db request.provider = some p →
      userProviderBalance db user_address request.provider
        < request.token_amount →
      unwrap_credits db request user_address tx_hash
        = .error (.insufficientBalance
            (userProviderBalance db user_address request.provider)
            request.token_amount) ∧
      (ApiError.insufficientBalance
        (userProviderBalance db user_address request.provider)
        request.token_amount).statusCode = 400) ∧
    (∀ (db : DB) (request : RetireTokensRequest)
      (user_address certificate_id tx_hash : String),
      0 < request.token_amount →
      userBalance db user_address < request.token_amount →
      retire_tokens_for_offset db request user_address certificate_id
        tx_hash
        = .error (.insufficientBalance (userBalance db user_address)
            request.token_amount) ∧
      (ApiError.insufficientBalance (userBalance db user_address)
        request.token_amount).statusCode = 400) := by
  constructor
  · intro db request user_address tx_hash p hp hbal
    exact ⟨unwrap_credits_insufficient db request user_address tx_hash p hp
      hbal, rfl⟩
  · intro db request user_address certificate_id tx_hash hpos hbal
    exact ⟨retire_tokens_insufficient db request user_address certificate_id
      tx_hash hpos hbal, rfl⟩

/-- C2 witness: unwrapping 150 and retiring 101 against a balance of 100
both fail with InsufficientBalance carrying both figures. -/
theorem claim_C2_witness :
    (unwrap_credits exampleDb { provider := "openai", token_amount := 150 }
        "0xabc" "0xtx3"
      = .error (.insufficientBalance
          (userProviderBalance exampleDb "0xabc" "openai") 150) ∧
      (ApiError.insufficientBalance
        (userProviderBalance exampleDb "0xabc" "openai") 150).statusCode
        = 400) ∧
    (retire_tokens_for_offset exampleDb
        { token_amount := 101, reason := "Carbon offset retirement" }
        "0xabc" "GCS-20240101-0002" "0xtx4"
      = .error (.insufficientBalance (userBalance exampleDb "0xabc") 101) ∧
      (ApiError.insufficientBalance (userBalance exampleDb "0xabc")
        101).statusCode = 400) := by
  constructor
  · exact claim_C2_insufficient.1 exampleDb
      { provider := "openai", token_amount := 150 } "0xabc" "0xtx3"
      openaiProvider rfl
      (by norm_num [userProviderBalance, exampleDb, sumWrapped,
        userProviderActiveFilter, wrapperA, wrapperB, List.filter])
  · exact claim_C2_insufficient.2 exampleDb
      { token_amount := 101, reason := "Carbon offset retirement" }
      "0xabc" "GCS-20240101-0002" "0xtx4" (by norm_num)
      (by norm_num [userBalance, exampleDb, sumWrapped,
        userActiveFilter, wrapperA, wrapperB, List.filter])

/-- C3 counterexample: an unwrap request with token_amount = 0 (a
non-positive amount) does NOT fail with a ValidationError — unwrap_credits
has no positivity check and the request completes successfully, refuting
the claim that every mutating request with a non-positive amount is
rejected with HTTP 400. -/
theorem claim_C3_counterexample :
    unwrap_credits exampleDb { provider := "openai", token_amount := 0 }
      "0xabc" "0xtx9"
      = .ok (exampleDb,
        { credits_restored := 0, provider := "openai",
          transaction_hash := "0xtx9" }) := by
  norm_num [unwrap_credits, findProvider, exampleDb, openaiProvider,
    sumWrapped, userProviderActiveFilter, wrapperA, wrapperB, allocate,
    List.filter]

/-- C3 amended: wrap, trade and retire reject a non-positive amount with a
ValidationError mapped to HTTP 400 and mutate nothing; unwrap_credits
performs no such check — a non-positive token_amount proceeds and
completes successfully (though the allocation loop breaks immediately, so
no Wrapper row is created or mutated). -/
theorem claim_C3_amended_validation :
    (ApiError.validation "Token amount must be greater than 0").statusCode
      = 400 ∧
    (∀ (db : DB) (request : WrapCreditsRequest)
      (user_address : String) (verification_valid : Bool) (tx_hash : String)
      (p : AIProvider),
      findProvider db request.provider = some p →
      request.credit_amount ≤ 0 →
      wrap_credits db request user_address verification_valid tx_hash
        = .error (.validation "Credit amount must be greater than 0")) ∧
    (∀ (db : DB) (request : ExecuteTradeRequest)
      (buyer_address tx_hash : String),
      request.token_amount ≤ 0 →
      execute_trade db request buyer_address tx_hash
        = .error (.validation "Token amount must be greater than 0")) ∧
    (∀ (db : DB) (request : RetireTokensRequest)
      (user_address certificate_id tx_hash : String),
      request.token_amount ≤ 0 →
      retire_tokens_for_offset db request user_address certificate_id
        tx_hash
        = .error (.validation "Token amount must be greater than 0")) ∧
    (∀ (db : DB) (request : UnwrapCreditsRequest)
      (user_address tx_hash : String) (p : AIProvider),
      findProvider db request.provider = some p →
      p.conversion_rate ≠ 0 →
      request.token_amount ≤ 0 →
      0 ≤ userProviderBalance db user_address request.provider →
      ∃ resp,
        unwrap_credits db request user_address tx_hash = .ok (db, resp)) := by
  refine ⟨rfl, ?_, ?_, ?_, ?_⟩
  · intro db request user_address verification_valid tx_hash p hp hle
    simp only [wrap_credits, hp]
    rw [if_pos hle]
  · intro db request buyer_address tx_hash hle
    simp only [execute_trade]
    rw [if_pos hle]
  · intro db request user_address certificate_id tx_hash hle
    simp only [retire_tokens_for_offset]
    rw [if_pos hle]
  · intro db request user_address tx_hash p hp hrate hle hnn
    have h := unwrap_credits_ok db request user_address tx_hash p hp hrate
      (le_trans hle hnn)
    rw [allocate_nonpos _ _ _ hle] at h
    exact ⟨_, h⟩

/-- C3 witness for the amended statement: amount 0 (and -5) rejected by
wrap, trade and retire, while the unchecked unwrap with amount 0
succeeds and leaves the store unchanged. -/
theorem claim_C3_witness :
    wrap_credits exampleDb
        { provider := "openai", credit_amount := 0, proof := "proof12345" }
        "0xabc" true "0xtx5"
      = .error (.validation "Credit amount must be greater than 0") ∧
    execute_trade exampleDb { order_id := 1, token_amount := -5 }
        "0xabc" "0xtx6"
      = .error (.validation "Token amount must be greater than 0") ∧
    retire_tokens_for_offset exampleDb
        { token_amount := 0, reason := "Carbon offset retirement" }
        "0xabc" "GCS-20240101-0003" "0xtx7"
      = .error (.validation "Token amount must be greater than 0") ∧
    (∃ resp,
      unwrap_credits exampleDb { provider := "openai", token_amount := 0 }
        "0xabc" "0xtx8" = .ok (exampleDb, resp)) := by
  refine ⟨?_, ?_, ?_, ?_⟩
  · exact claim_C3_amended_validation.2.1 exampleDb
      { provider := "openai", credit_amount := 0, proof := "proof12345" }
      "0xabc" true "0xtx5" openaiProvider rfl (by norm_num)
  · exact claim_C3_amended_validation.2.2.1 exampleDb
      { order_id := 1, token_amount := -5 } "0xabc" "0xtx6" (by norm_num)
  · exact claim_C3_amended_validation.2.2.2.1 exampleDb
      { token_amount := 0, reason := "Carbon offset retirement" }
      "0xabc" "GCS-20240101-0003" "0xtx7" (by norm_num)
  · exact claim_C3_amended_validation.2.2.2.2 exampleDb
      { provider := "openai", token_amount := 0 } "0xabc" "0xtx8"
      openaiProvider rfl (by norm_num [openaiProvider]) (by norm_num)
      (by norm_num [userProviderBalance, exampleDb, sumWrapped,
        userProviderActiveFilter, wrapperA, wrapperB, List.filter])

/-- C4: a successful wrap with credit_amount c against a provider with
conversion_rate r appends exactly one new active Wrapper row carrying
c * r tokens, touches no existing row (the old table is an unchanged
segment of the new one), and raises the total active balance by exactly
c * r. -/
theorem claim_C4_wrap_mints (db : DB) (request : WrapCreditsRequest)
    (user_address tx_hash : String) (p : AIProvider)
    (hp : findProvider db request.provider = some p)
    (hpos : 0 < request.credit_amount)
    (hproof : 10 ≤ request.proof.length) :
    ∃ w resp,
      wrap_credits db request user_address true tx_hash
        = .ok ({ db with wrappers := db.wrappers ++ [w],
                         next_id := db.next_id + 1 }, resp) ∧
      w.wrapped_tokens = request.credit_amount * p.conversion_rate ∧
      w.is_active = true ∧
      w.user_address = user_address ∧
      resp.tokens_issued = request.credit_amount * p.conversion_rate ∧
      userBalance { db with wrappers := db.wrappers ++ [w],
                            next_id := db.next_id + 1 } user_address
        = userBalance db user_address
          + request.credit_amount * p.conversion_rate := by
  refine ⟨_, _, wrap_credits_ok db request user_address tx_hash p hp hpos
    hproof, rfl, rfl, rfl, rfl, ?_⟩
  simp only [userBalance]
  rw [sumWrapped_filter_append]
  simp [userActiveFilter]

/-- C4 witness: wrapping 100 credits at rate 1 on the concrete store. -/
theorem claim_C4_witness :
    ∃ w resp,
      wrap_credits exampleDb
          { provider := "openai", credit_amount := 100,
            proof := "proof12345" } "0xabc" true "0xtx10"
        = .ok ({ exampleDb with wrappers := exampleDb.wrappers ++ [w],
                                next_id := exampleDb.next_id + 1 }, resp) ∧
      w.wrapped_tokens = 100 * openaiProvider.conversion_rate ∧
      w.is_active = true ∧
      w.user_address = "0xabc" ∧
      resp.tokens_issued = 100 * openaiProvider.conversion_rate ∧
      userBalance { exampleDb with
          wrappers := exampleDb.wrappers ++ [w],
          next_id := exampleDb.next_id + 1 } "0xabc"
        = userBalance exampleDb "0xabc"
          + 100 * openaiProvider.conversion_rate :=
  claim_C4_wrap_mints exampleDb
    { provider := "openai", credit_amount := 100, proof := "proof12345" }
    "0xabc" "0xtx10" openaiProvider rfl (by norm_num) (by decide)

/-- C5: the reported total balance is the sum of wrapped_tokens over
exactly the rows with the given user_address and is_active = true; the
provider-scoped variant additionally restricts by provider; an empty
result set yields 0 rather than an error.  `get_token_balance` is a pure
function of the store (its Lean type returns no new `DB`), so the query
performs no writes. -/
theorem claim_C5_balance_query :
    (∀ (db : DB) (user_address : String),
      (get_token_balance db user_address).total_balance
        = sumWrapped (db.wrappers.filter
            (fun w => w.user_address == user_address && w.is_active))) ∧
    (∀ (db : DB) (user_address : String),
      db.wrappers.filter
          (fun w => w.user_address == user_address && w.is_active) = [] →
      (get_token_balance db user_address).total_balance = 0) ∧
    (∀ (db : DB) (user_address provider : String),
      userProviderBalance db user_address provider
        = sumWrapped (db.wrappers.filter
            (fun w => w.user_address == user_address
              && w.provider == provider && w.is_active))) := by
  refine ⟨fun db user_address => rfl, ?_, fun db user_address provider => rfl⟩
  intro db user_address h
  simp only [get_token_balance, h]
  rfl

/-- C5 witness: balance 100 for the holder, balance 0 (not an error) for
an address with no rows. -/
theorem claim_C5_witness :
    (get_token_balance exampleDb "0xabc").total_balance
      = sumWrapped (exampleDb.wrappers.filter
          (fun w => w.user_address == "0xabc" && w.is_active)) ∧
    (get_token_balance exampleDb "0xnobody").total_balance = 0 :=
  ⟨claim_C5_balance_query.1 exampleDb "0xabc",
   claim_C5_balance_query.2.1 exampleDb "0xnobody" rfl⟩

/-- C6: when the allocation loop reaches a row whose remaining
wrapped_tokens exactly equals the remaining amount to consume, the
full-consumption branch fires (the comparison is `<=`, not `<`): the row
is deactivated and contributes nothing further to the scoped active
balance, and the loop ends with remaining 0 leaving the rest of the table
unchanged. -/
theorem claim_C6_exact_consumption (pred : TokenWrapper → Bool)
    (hdeact : ∀ w : TokenWrapper, pred { w with is_active := false } = false)
    (w : TokenWrapper) (ws : List TokenWrapper)
    (hp : pred w = true) (hpos : 0 < w.wrapped_tokens) :
    allocate pred (w :: ws) w.wrapped_tokens
      = ({ w with is_active := false } :: ws, 0) ∧
    sumWrapped (({ w with is_active := false } :: ws).filter pred)
      = sumWrapped (ws.filter pred) := by
  constructor
  · simp [allocate, hp, not_le.2 hpos, sub_self,
      allocate_nonpos pred ws 0 le_rfl]
  · simp [List.filter_cons, hdeact w]

/-- C6 witness: consuming exactly the 50 remaining tokens of the first
concrete wrapper row deactivates it and drops it from the balance. -/
theorem claim_C6_witness :
    allocate (userActiveFilter "0xabc") (wrapperA :: [wrapperB])
        wrapperA.wrapped_tokens
      = ({ wrapperA with is_active := false } :: [wrapperB], 0) ∧
    sumWrapped (({ wrapperA with is_active := false } :: [wrapperB]).filter
        (userActiveFilter "0xabc"))
      = sumWrapped ([wrapperB].filter (userActiveFilter "0xabc")) :=
  claim_C6_exact_consumption (userActiveFilter "0xabc")
    (fun v => userActiveFilter_deactivate "0xabc" v) wrapperA [wrapperB]
    rfl (by norm_num [wrapperA])

/-- C7: every successful retire of token_amount t derives
carbon_credits_purchased = t * 0.001 (exactly t * 1/1000 in this rational
model), reports that value in the response, records the same value in
exactly one new CarbonOffset row, and commits that row in the same
transaction (the same returned store) as the Wrapper debits. -/
theorem claim_C7_retire_derivation (db : DB) (request : RetireTokensRequest)
    (user_address certificate_id tx_hash : String)
    (hpos : 0 < request.token_amount)
    (hbal : request.token_amount ≤ userBalance db user_address) :
    ∃ db' resp o,
      retire_tokens_for_offset db request user_address certificate_id
        tx_hash = .ok (db', resp) ∧
      resp.carbon_credits_purchased
        = request.token_amount * (1 / 1000 : ℚ) ∧
      resp.tokens_retired = request.token_amount ∧
      db'.offsets = db.offsets ++ [o] ∧
      o.carbon_credits_purchased = request.token_amount * (1 / 1000 : ℚ) ∧
      o.tokens_retired = request.token_amount ∧
      o.offset_certificate_id = certificate_id ∧
      db'.wrappers = (allocate (userActiveFilter user_address) db.wrappers
        request.token_amount).1 :=
  ⟨_, _, _, retire_tokens_ok db request user_address certificate_id tx_hash
    hpos hbal, rfl, rfl, rfl, rfl, rfl, rfl, rfl⟩

/-- C7 witness: retiring 25 tokens on the concrete store yields
carbon_credits_purchased = 25/1000 in the response and in the single new
offset row. -/
theorem claim_C7_witness :
    ∃ db' resp o,
      retire_tokens_for_offset exampleDb
          { token_amount := 25, reason := "Carbon offset retirement" }
          "0xabc" "GCS-20240101-0004" "0xtx11" = .ok (db', resp) ∧
      resp.carbon_credits_purchased = 25 * (1 / 1000 : ℚ) ∧
      resp.tokens_retired = 25 ∧
      db'.offsets = exampleDb.offsets ++ [o] ∧
      o.carbon_credits_purchased = 25 * (1 / 1000 : ℚ) ∧
      o.tokens_retired = 25 ∧
      o.offset_certificate_id = "GCS-20240101-0004" ∧
      db'.wrappers = (allocate (userActiveFilter "0xabc")
        exampleDb.wrappers 25).1 :=
  claim_C7_retire_derivation exampleDb
    { token_amount := 25, reason := "Carbon offset retirement" }
    "0xabc" "GCS-20240101-0004" "0xtx11" (by norm_num)
    (by norm_num [userBalance, exampleDb, sumWrapped, userActiveFilter,
      wrapperA, wrapperB, List.filter])

/-- C8: every successful trade inserts exactly one Exchange row with
status "completed" and total_price = token_amount * price_per_token (the
fixed mock seller and price 0.95 = 19/20), and mutates no Wrapper row: no
balance of any user changes. -/
theorem claim_C8_trade_frame (db : DB) (request : ExecuteTradeRequest)
    (buyer_address tx_hash : String) (hpos : 0 < request.token_amount) :
    ∃ db' tr resp,
      execute_trade db request buyer_address tx_hash = .ok (db', resp) ∧
      db'.exchanges = db.exchanges ++ [tr] ∧
      tr.status = "completed" ∧
      tr.total_price = request.token_amount * ((19 : ℚ) / 20) ∧
      resp.total_price = request.token_amount * ((19 : ℚ) / 20) ∧
      db'.wrappers = db.wrappers ∧
      (∀ u : String, userBalance db' u = userBalance db u) ∧
      (∀ u p : String,
        userProviderBalance db' u p = userProviderBalance db u p) :=
  ⟨_, _, _, execute_trade_ok db request buyer_address tx_hash hpos,
    rfl, rfl, rfl, rfl, rfl, fun _ => rfl, fun _ _ => rfl⟩

/-- C8 witness: a concrete trade of 50 tokens appends one completed row
with total price 50 * 19/20 and leaves every balance unchanged. -/
theorem claim_C8_witness :
    ∃ db' tr resp,
      execute_trade exampleDb { order_id := 1, token_amount := 50 }
        "0xabc" "0xtx12" = .ok (db', resp) ∧
      db'.exchanges = exampleDb.exchanges ++ [tr] ∧
      tr.status = "completed" ∧
      tr.total_price = 50 * ((19 : ℚ) / 20) ∧
      resp.total_price = 50 * ((19 : ℚ) / 20) ∧
      db'.wrappers = exampleDb.wrappers ∧
      (∀ u : String, userBalance db' u = userBalance exampleDb u) ∧
      (∀ u p : String,
        userProviderBalance db' u p = userProviderBalance exampleDb u p) :=
  claim_C8_trade_frame exampleDb { order_id := 1, token_amount := 50 }
    "0xabc" "0xtx12" (by norm_num)

/-- C9: each operation preserves the row invariants: wrapped_tokens stays
nonnegative (wrap needs a nonnegative conversion rate for the freshly
minted row; allocation only ever subtracts a strictly smaller amount), and
a deactivated row is terminal — every allocation query filters on
is_active = true, so an inactive row is never mutated or reactivated
(position by position via Forall₂); trade touches no wrapper at all, and
the read endpoints return no store.  Stated on the committed result of
each mutating handler. -/
theorem claim_C9_invariants :
    (∀ (db : DB) (request : WrapCreditsRequest)
      (user_address tx_hash : String) (p : AIProvider),
      findProvider db request.provider = some p →
      0 < request.credit_amount →
      10 ≤ request.proof.length →
      0 ≤ p.conversion_rate →
      ∃ db' resp w,
        wrap_credits db request user_address true tx_hash
          = .ok (db', resp) ∧
        db'.wrappers = db.wrappers ++ [w] ∧
        ((∀ v ∈ db.wrappers, 0 ≤ v.wrapped_tokens) →
          ∀ v ∈ db'.wrappers, 0 ≤ v.wrapped_tokens)) ∧
    (∀ (db : DB) (request : UnwrapCreditsRequest)
      (user_address tx_hash : String) (p : AIProvider),
      findProvider db request.provider = some p →
      p.conversion_rate ≠ 0 →
      request.token_amount
        ≤ userProviderBalance db user_address request.provider →
      ∃ db' resp,
        unwrap_credits db request user_address tx_hash = .ok (db', resp) ∧
        ((∀ v ∈ db.wrappers, 0 ≤ v.wrapped_tokens) →
          ∀ v ∈ db'.wrappers, 0 ≤ v.wrapped_tokens) ∧
        List.Forall₂ (fun o n => o.is_active = false → n = o)
          db.wrappers db'.wrappers) ∧
    (∀ (db : DB) (request : ExecuteTradeRequest)
      (buyer_address tx_hash : String),
      0 < request.token_amount →
      ∃ db' resp,
        execute_trade db request buyer_address tx_hash = .ok (db', resp) ∧
        db'.wrappers = db.wrappers) ∧
    (∀ (db : DB) (request : RetireTokensRequest)
      (user_address certificate_id tx_hash : String),
      0 < request.token_amount →
      request.token_amount ≤ userBalance db user_address →
      ∃ db' resp,
        retire_tokens_for_offset db request user_address certificate_id
          tx_hash = .ok (db', resp) ∧
        ((∀ v ∈ db.wrappers, 0 ≤ v.wrapped_tokens) →
          ∀ v ∈ db'.wrappers, 0 ≤ v.wrapped_tokens) ∧
        List.Forall₂ (fun o n => o.is_active = false → n = o)
          db.wrappers db'.wrappers) := by
  refine ⟨?_, ?_, ?_, ?_⟩
  · intro db request user_address tx_hash p hp hpos hproof hr
    refine ⟨_, _, _, wrap_credits_ok db request user_address tx_hash p hp
      hpos hproof, rfl, ?_⟩
    intro h v hv
    rcases List.mem_append.1 hv with hv | hv
    · exact h v hv
    · rcases List.mem_singleton.1 hv with rfl
      exact mul_nonneg (le_of_lt hpos) hr
  · intro db request user_address tx_hash p hp hrate hbal
    refine ⟨_, _, unwrap_credits_ok db request user_address tx_hash p hp
      hrate hbal, ?_, ?_⟩
    · intro h
      exact allocate_nonneg _ db.wrappers request.token_amount h
    · refine (allocate_frame _ db.wrappers request.token_amount).imp ?_
      intro o n hfr hia
      exact hfr (by simp [userProviderActiveFilter, hia])
  · intro db request buyer_address tx_hash hpos
    exact ⟨_, _, execute_trade_ok db request buyer_address tx_hash hpos,
      rfl⟩
  · intro db request user_address certificate_id tx_hash hpos hbal
    refine ⟨_, _, retire_tokens_ok db request user_address certificate_id
      tx_hash hpos hbal, ?_, ?_⟩
    · intro h
      exact allocate_nonneg _ db.wrappers request.token_amount h
    · refine (allocate_frame _ db.wrappers request.token_amount).imp ?_
      intro o n hfr hia
      exact hfr (by simp [userActiveFilter, hia])

/-- C9 witness: the four mutating handlers on the concrete store preserve
row nonnegativity and never touch an inactive row. -/
theorem claim_C9_witness :
    (∃ db' resp w,
      wrap_credits exampleDb
          { provider := "openai", credit_amount := 20,
            proof := "proof12345" } "0xabc" true "0xtx13"
        = .ok (db', resp) ∧
      db'.wrappers = exampleDb.wrappers ++ [w] ∧
      ((∀ v ∈ exampleDb.wrappers, 0 ≤ v.wrapped_tokens) →
        ∀ v ∈ db'.wrappers, 0 ≤ v.wrapped_tokens)) ∧
    (∃ db' resp,
      unwrap_credits exampleDb { provider := "openai", token_amount := 70 }
        "0xabc" "0xtx14" = .ok (db', resp) ∧
      ((∀ v ∈ exampleDb.wrappers, 0 ≤ v.wrapped_tokens) →
        ∀ v ∈ db'.wrappers, 0 ≤ v.wrapped_tokens) ∧
      List.Forall₂ (fun o n => o.is_active = false → n = o)
        exampleDb.wrappers db'.wrappers) ∧
    (∃ db' resp,
      execute_trade exampleDb { order_id := 1, token_amount := 50 }
        "0xabc" "0xtx15" = .ok (db', resp) ∧
      db'.wrappers = exampleDb.wrappers) ∧
    (∃ db' resp,
      retire_tokens_for_offset exampleDb
          { token_amount := 25, reason := "Carbon offset retirement" }
          "0xabc" "GCS-20240101-0005" "0xtx16" = .ok (db', resp) ∧
      ((∀ v ∈ exampleDb.wrappers, 0 ≤ v.wrapped_tokens) →
        ∀ v ∈ db'.wrappers, 0 ≤ v.wrapped_tokens) ∧
      List.Forall₂ (fun o n => o.is_active = false → n = o)
        exampleDb.wrappers db'.wrappers) := by
  refine ⟨?_, ?_, ?_, ?_⟩
  · exact claim_C9_invariants.1 exampleDb
      { provider := "openai", credit_amount := 20, proof := "proof12345" }
      "0xabc" "0xtx13" openaiProvider rfl (by norm_num) (by decide)
      (by norm_num [openaiProvider])
  · exact claim_C9_invariants.2.1 exampleDb
      { provider := "openai", token_amount := 70 } "0xabc" "0xtx14"
      openaiProvider rfl (by norm_num [openaiProvider])
      (by norm_num [userProviderBalance, exampleDb, sumWrapped,
        userProviderActiveFilter, wrapperA, wrapperB, List.filter])
  · exact claim_C9_invariants.2.2.1 exampleDb
      { order_id := 1, token_amount := 50 } "0xabc" "0xtx15" (by norm_num)
  · exact claim_C9_invariants.2.2.2 exampleDb
      { token_amount := 25, reason := "Carbon offset retirement" }
      "0xabc" "GCS-20240101-0005" "0xtx16" (by norm_num)
      (by norm_num [userBalance, exampleDb, sumWrapped, userActiveFilter,
        wrapperA, wrapperB, List.filter])

/-- C10: on the success path the response reports
credits_restored = token_amount / conversion_rate; the division is
unguarded in the source, so a zero conversion_rate makes the same
otherwise-valid request end in the catch-all HTTP 500 instead of
succeeding: conversion_rate different from 0 is a genuine precondition for
success. -/
theorem claim_C10_unwrap_division :
    (∀ (db : DB) (request : UnwrapCreditsRequest)
      (user_address tx_hash : String) (p : AIProvider),
      findProvider db request.provider = some p →
      p.conversion_rate ≠ 0 →
      request.token_amount
        ≤ userProviderBalance db user_address request.provider →
      ∃ db',
        unwrap_credits db request user_address tx_hash
          = .ok (db',
            { credits_restored :=
                request.token_amount / p.conversion_rate
              provider := request.provider
              transaction_hash := tx_hash })) ∧
    (∀ (db : DB) (request : UnwrapCreditsRequest)
      (user_address tx_hash : String) (p : AIProvider),
      findProvider db request.provider = some p →
      p.conversion_rate = 0 →
      request.token_amount
        ≤ userProviderBalance db user_address request.provider →
      unwrap_credits db request user_address tx_hash
        = .error .internalError) := by
  constructor
  · intro db request user_address tx_hash p hp hrate hbal
    exact ⟨_, unwrap_credits_ok db request user_address tx_hash p hp hrate
      hbal⟩
  · intro db request user_address tx_hash p hp hrate hbal
    exact unwrap_credits_zero_rate db request user_address tx_hash p hp
      hrate hbal

/-- C10 witness: unwrapping 70 at rate 1 reports 70 / 1 credits restored,
and the same request shape against the zero-rate provider ends in the
HTTP 500 branch. -/
theorem claim_C10_witness :
    (∃ db',
      unwrap_credits exampleDb { provider := "openai", token_amount := 70 }
        "0xabc" "0xtx17"
        = .ok (db',
          { credits_restored := 70 / openaiProvider.conversion_rate
            provider := "openai"
            transaction_hash := "0xtx17" })) ∧
    unwrap_credits exampleDb { provider := "zerorate", token_amount := 0 }
      "0xabc" "0xtx18" = .error .internalError := by
  constructor
  · exact claim_C10_unwrap_division.1 exampleDb
      { provider := "openai", token_amount := 70 } "0xabc" "0xtx17"
      openaiProvider rfl (by norm_num [openaiProvider])
      (by norm_num [userProviderBalance, exampleDb, sumWrapped,
        userProviderActiveFilter, wrapperA, wrapperB, List.filter])
  · exact claim_C10_unwrap_division.2 exampleDb
      { provider := "zerorate", token_amount := 0 } "0xabc" "0xtx18"
      zeroRateProvider rfl rfl
      (le_of_eq (rfl :
        (0 : ℚ) = userProviderBalance exampleDb "0xabc" "zerorate"))

end GPTX
